import Mathlib

/-!
Verification of the fund-advisor decision core against its specification.

The development shallowly embeds the Python sources:
  * `portfolio_tracker.py` — the ledger (`add_trade`, `get_position`);
  * `main.py`              — the position decision engine (`calculate_position_v13`);
  * `technical_analyzer.py`— the technical signal engine (`calculate_indicators`
    guard, weekly trend, volume ratio, score fusion, CRO risk-signal rules).

Machine floats are modelled as rationals; Python `round` (banker's rounding)
and `int` (truncation toward zero) are modelled explicitly.  Results of the
external `ta` indicator library (RSI / MACD / Bollinger / OBV), which is a
third-party dependency and not part of this repository, enter the embedding
as parameters.
-/

namespace FundAdvisor

/-- Python `int(q)` on a numeric value: truncation toward zero. -/
def pyInt (q : ℚ) : ℤ :=
  if 0 ≤ q then ⌊q⌋ else -⌊-q⌋

/-- Round a rational to the nearest integer, ties to the even integer —
the rounding mode of Python's builtin `round`. -/
def roundHalfEven (q : ℚ) : ℤ :=
  if q - ⌊q⌋ < 1/2 then ⌊q⌋
  else if 1/2 < q - ⌊q⌋ then ⌊q⌋ + 1
  else if 2 ∣ ⌊q⌋ then ⌊q⌋ else ⌊q⌋ + 1

/-- Python `round(q, n)`: banker's rounding at the n-th decimal digit. -/
def pyRound (q : ℚ) (n : ℕ) : ℚ :=
  (roundHalfEven (q * 10 ^ n) : ℚ) / 10 ^ n

/-! ## Ledger (`portfolio_tracker.py`) -/

/-- One entry of a position's bounded trade history
(`record` in `add_trade`; the wall-clock date string is not modelled). -/
structure TradeRecord where
  price : ℚ
  sell : Bool
  amt : ℤ
deriving Repr, DecidableEq

/-- A persistent per-instrument position, as stored in `portfolio.json`:
shares held, weighted-average cost (`round(·, 4)`), consecutive days held,
and the bounded trade history. -/
structure Position where
  shares : ℚ
  cost : ℚ
  held_days : ℕ
  history : List TradeRecord
deriving Repr, DecidableEq

/-- The defaulted position created on first contact with an instrument. -/
def Position.empty : Position := ⟨0, 0, 0, []⟩

/-- `pos['history'][-10:]` — keep only the 10 most recent trade records. -/
def trimHistory (h : List TradeRecord) : List TradeRecord :=
  if 10 < h.length then h.drop (h.length - 10) else h

/-- The exact (unrounded) weighted-average cost after a buy, as written in
`add_trade`: `(old_value + new_invest) / total_shares` with
`old_value = shares*cost`, `new_invest = shares_change*price`,
`total_shares = shares + shares_change`, `shares_change = amount/price`. -/
def buyExactCost (pos : Position) (amount price : ℚ) : ℚ :=
  (pos.shares * pos.cost + (amount / price) * price) / (pos.shares + amount / price)

/-- The sell branch of `add_trade`: shares shrink by at most the held amount,
and a full exit resets cost and holding days to zero. -/
def sellUpdate (pos : Position) (value price : ℚ) : Position :=
  let real_sell_shares := min pos.shares (value / price)
  let new_shares := max 0 (pos.shares - real_sell_shares)
  { shares := new_shares
    cost := if new_shares = 0 then 0 else pos.cost
    held_days := if new_shares = 0 then 0 else pos.held_days
    history := trimHistory (pos.history ++
      [⟨pyRound price 3, true, -(pyInt (real_sell_shares * price))⟩]) }

/-- The buy branch of `add_trade`: shares grow by `amount/price`, the weighted
average cost is recomputed (rounded to 4 decimals) while total shares are
positive, and holding days start at 1 when they were 0. -/
def buyUpdate (pos : Position) (amount price : ℚ) : Position :=
  let total_shares := pos.shares + amount / price
  { shares := total_shares
    cost := if 0 < total_shares then pyRound (buyExactCost pos amount price) 4
            else pos.cost
    held_days := if pos.held_days = 0 then 1 else pos.held_days
    history := trimHistory (pos.history ++
      [⟨pyRound price 3, false, pyInt amount⟩]) }

/-- `PortfolioTracker.add_trade` restricted to the single position it touches
(the method selects `self.portfolio[code]`, creating the defaulted record if
absent, and mutates only that entry).  A non-positive price is a no-op. -/
def add_trade (pos : Position) (amount_or_value price : ℚ) (is_sell : Bool) :
    Position :=
  if price ≤ 0 then pos
  else if is_sell then sellUpdate pos amount_or_value price
  else buyUpdate pos amount_or_value price

/-- Position states reachable from the empty position through arbitrary
`add_trade` calls (any amount, any price, either side). -/
inductive ReachableTrades : Position → Prop
  | init : ReachableTrades Position.empty
  | step (p : Position) (a price : ℚ) (s : Bool) :
      ReachableTrades p → ReachableTrades (add_trade p a price s)

/-- Position states reachable from the empty position through `add_trade`
calls in which every buy carries a positive amount (sell values and prices
remain unrestricted). -/
inductive ReachablePos : Position → Prop
  | init : ReachablePos Position.empty
  | buy (p : Position) (a price : ℚ) (ha : 0 < a) :
      ReachablePos p → ReachablePos (add_trade p a price false)
  | sell (p : Position) (v price : ℚ) :
      ReachablePos p → ReachablePos (add_trade p v price true)

/-! ## Technical reading (`technical_analyzer.py` data model) -/

/-- The MACD sub-dictionary of a reading. -/
structure Macd where
  line : ℚ
  signal : ℚ
  hist : ℚ
  trend : String
deriving Repr, DecidableEq

/-- The `risk_factors` sub-dictionary of a reading.  The `divergence` key is
present only in the safe-default reading, hence optional.  `vr` embeds the
source's volume-ratio entry (latest volume over its 5-bar average). -/
structure RiskFactors where
  bollinger_pct_b : ℚ
  vr : ℚ
  divergence : Option String
deriving Repr, DecidableEq

/-- The CRO comment attached to a reading.  Each constructor embeds one of the
format strings the source can store in `tech_cro_comment`, carrying the value
interpolated into it. -/
inductive CroComment where
  /-- "技术指标正常" -/
  | normal
  /-- "周线趋势向下" -/
  | weeklyDown
  /-- "流动性枯竭(VR {vol ratio}<0.6)" -/
  | liquidityDrought (vr : ℚ)
  /-- "RSI极度超买({rsi})" -/
  | overbought (rsi : ℚ)
  /-- "系统风控: {error msg}" -/
  | sysRisk (msg : String)
deriving Repr, DecidableEq

/-- A reason tag appended to `quant_reasons` by the decision engine.  Each
constructor embeds one of the f-strings of `calculate_position_v13`, carrying
any interpolated value. -/
inductive Reason where
  /-- "战术:极强" -/
  | tacticalStrong
  /-- "战术:走强" -/
  | tacticalStrengthen
  /-- "战术:企稳" -/
  | tacticalStable
  /-- "战术:破位" -/
  | tacticalBreakdown
  /-- "战略:高估刹车" -/
  | stratBrake
  /-- "战略:低估加倍" -/
  | stratAmplify
  /-- "战略:底部锁仓" -/
  | stratBottomLock
  /-- "战略:高估止损" -/
  | stratStopLoss
  /-- "战略:左侧定投" -/
  | stratContrarian
  /-- "🛡️风控:否决买入" -/
  | riskVetoBuy
  /-- "规则:锁仓({held days}天)" -/
  | lockRule (held_days : ℕ)
deriving Repr, DecidableEq

/-- The dictionary returned by `TechnicalAnalyzer.calculate_indicators`
(a `TechnicalReading`).  Keys that are absent until some later stage writes
them (`final_score` on the main path, and the three keys added by the
decision engine) are modelled as `Option`. -/
structure TechnicalReading where
  rsi : ℚ
  macd : Macd
  risk_factors : RiskFactors
  obv_slope : ℚ
  trend_weekly : String
  price : ℚ
  quant_score : ℤ
  final_score : Option ℤ
  ai_adjustment : Option ℤ
  valuation_desc : Option String
  quant_reasons : Option (List Reason)
  tech_cro_signal : String
  tech_cro_comment : CroComment
deriving Repr, DecidableEq

/-- `TechnicalAnalyzer._get_safe_default_indicators`: the fail-safe reading
(score 0, signal VETO) substituted whenever the input data is unusable. -/
def get_safe_default_indicators (error_msg : String := "数据不足或计算错误") :
    TechnicalReading :=
  { rsi := 50
    macd := { line := 0, signal := 0, hist := 0, trend := "未知" }
    risk_factors := { bollinger_pct_b := 1/2, vr := 1, divergence := some "无" }
    obv_slope := 0
    trend_weekly := "Unknown"
    price := 0
    quant_score := 0
    final_score := some 0
    ai_adjustment := none
    valuation_desc := none
    quant_reasons := none
    tech_cro_signal := "VETO"
    tech_cro_comment := .sysRisk error_msg }

/-! ## Position decision engine (`main.py`, `calculate_position_v13`) -/

/-- The position snapshot the decision engine receives from
`PortfolioTracker.get_position`: a defensive three-field copy. -/
structure PositionView where
  shares : ℚ
  cost : ℚ
  held_days : ℕ
deriving Repr, DecidableEq

/-- `PortfolioTracker.get_position` over an optional stored record: the
defaulted view when the instrument is unknown, a field copy otherwise. -/
def get_position : Option Position → PositionView
  | none => ⟨0, 0, 0⟩
  | some p => ⟨p.shares, p.cost, p.held_days⟩

/-- Steps 1–2 of `calculate_position_v13`: clamp `base_score + ai_adj` to
[0,100], then apply the advisory override gate (REJECT forces 0; HOLD caps a
score of 60 or more down to 59). -/
def tacticalScore (base_score ai_adj : ℤ) (ai_decision : String) : ℤ :=
  let s := max 0 (min 100 (base_score + ai_adj))
  if ai_decision = "REJECT" then 0
  else if ai_decision = "HOLD" then (if 60 ≤ s then 59 else s)
  else s

/-- Step 4 of `calculate_position_v13`: map the tactical score to its tier
multiplier and reason tag. -/
def tierStage (ts : ℤ) : ℚ × List Reason :=
  if 85 ≤ ts then (2, [.tacticalStrong])
  else if 70 ≤ ts then (1, [.tacticalStrengthen])
  else if 60 ≤ ts then (1/2, [.tacticalStable])
  else if ts ≤ 25 then (-1, [.tacticalBreakdown])
  else (0, [])

/-- Step 5 of `calculate_position_v13`: blend the tier multiplier with the
valuation multiplier. -/
def valuationStage (st : ℚ × List Reason) (val_mult : ℚ)
    (strategy_type : String) : ℚ × List Reason :=
  if 0 < st.1 then
    if val_mult < 1/2 then (0, st.2 ++ [.stratBrake])
    else if 1 < val_mult then (st.1 * val_mult, st.2 ++ [.stratAmplify])
    else st
  else if st.1 < 0 then
    if 6/5 < val_mult then (0, st.2 ++ [.stratBottomLock])
    else if val_mult < 4/5 then (st.1 * (3/2), st.2 ++ [.stratStopLoss])
    else st
  else
    if 3/2 ≤ val_mult ∧ (strategy_type = "core" ∨ strategy_type = "dividend")
    then (1/2, st.2 ++ [.stratContrarian])
    else st

/-- Step 6 of `calculate_position_v13`: a VETO risk signal zeroes a still
positive multiplier (it never touches a sell). -/
def riskVetoStage (cro_signal : String) (st : ℚ × List Reason) :
    ℚ × List Reason :=
  if cro_signal = "VETO" ∧ 0 < st.1 then (0, st.2 ++ [.riskVetoBuy]) else st

/-- Step 7 of `calculate_position_v13`: the 7-day lock-in rule zeroes a
negative multiplier while a young position is held. -/
def lockStage (shares : ℚ) (held_days : ℕ) (st : ℚ × List Reason) :
    ℚ × List Reason :=
  if st.1 < 0 ∧ 0 < shares ∧ held_days < 7 then
    (0, st.2 ++ [.lockRule held_days])
  else st

/-- The final blended multiplier (with its reason tags) after the full
precedence chain: tier → valuation blend → risk veto → lock-in. -/
def multStages (tech : TechnicalReading) (ai_adj : ℤ) (ai_decision : String)
    (val_mult : ℚ) (pos : PositionView) (strategy_type : String) :
    ℚ × List Reason :=
  lockStage pos.shares pos.held_days
    (riskVetoStage tech.tech_cro_signal
      (valuationStage (tierStage (tacticalScore tech.quant_score ai_adj ai_decision))
        val_mult strategy_type))

/-- `if reasons: tech['quant_reasons'] = reasons` — record the reason tags on
the reading when any exist. -/
def withReasons (t : TechnicalReading) (rs : List Reason) : TechnicalReading :=
  if rs = [] then t else { t with quant_reasons := some rs }

/-- The tuple returned by `calculate_position_v13`, together with the reading
as it stands after the engine's in-place writes. -/
structure DecisionOutput where
  final_amt : ℤ
  label : String
  is_sell : Bool
  sell_val : ℚ
  tech : TechnicalReading
deriving Repr, DecidableEq

/-- `calculate_position_v13` of `main.py`: fuse the technical reading with the
advisory adjustment/decision, the valuation multiplier, and the current
position, producing the trade instruction.  The advisory adjustment enters
after the source's `int(ai_adj)` boundary conversion (failures there reset it
to 0 before this logic runs).  Lines 73–75 and 123 of the source write
`final_score`, `ai_adjustment`, `valuation_desc` and `quant_reasons` into the
reading; the returned `tech` reflects those writes. -/
def calculate_position_v13 (tech : TechnicalReading) (ai_adj : ℤ)
    (ai_decision : String) (val_mult : ℚ) (val_desc : String)
    (base_amt max_daily : ℚ) (pos : PositionView) (strategy_type : String) :
    DecisionOutput :=
  let ts := tacticalScore tech.quant_score ai_adj ai_decision
  let tech1 := { tech with
    final_score := some ts
    ai_adjustment := some ai_adj
    valuation_desc := some val_desc }
  let st := multStages tech ai_adj ai_decision val_mult pos strategy_type
  if 0 < st.1 then
    { final_amt := max 0 (min (pyInt (base_amt * st.1)) (pyInt max_daily))
      label := "买入"
      is_sell := false
      sell_val := 0
      tech := withReasons tech1 st.2 }
  else if st.1 < 0 then
    { final_amt := 0
      label := "卖出"
      is_sell := true
      sell_val := pos.shares * tech.price * min |st.1| 1
      tech := withReasons tech1 st.2 }
  else
    { final_amt := 0
      label := "观望"
      is_sell := false
      sell_val := 0
      tech := withReasons tech1 st.2 }

/-! ## Technical signal engine (`technical_analyzer.py`) -/

/-- One daily price bar.  `day` numbers consecutive calendar days with day 0 a
Monday, so the pandas weekly resample bin (weeks ending Sunday) of a bar is
`day / 7`. -/
structure PriceBar where
  day : ℕ
  openP : ℚ
  high : ℚ
  low : ℚ
  close : ℚ
  volume : ℚ
deriving Repr, DecidableEq

/-- Helper for `weeklyCloses`: walk the chronologically ordered bars keeping
the (week, last close seen in that week) in the accumulator. -/
def weeklyClosesAux : List PriceBar → Option (ℕ × ℚ) → List ℚ
  | [], none => []
  | [], some (_, c) => [c]
  | b :: rest, none => weeklyClosesAux rest (some (b.day / 7, b.close))
  | b :: rest, some (w, c) =>
      if b.day / 7 = w then weeklyClosesAux rest (some (w, b.close))
      else c :: weeklyClosesAux rest (some (b.day / 7, b.close))

/-- `df.resample('W').agg({'close': 'last'})` for a gap-free chronological
daily series: the last close of each calendar week, in week order. -/
def weeklyCloses (bars : List PriceBar) : List ℚ :=
  weeklyClosesAux bars none

/-- Step 6 of `calculate_indicators`: the weekly trend.  With at least 5
weekly closes, compare the latest weekly close against the 5-week moving
average (`"UP"` when strictly above, else `"DOWN"`); otherwise `"Unknown"`. -/
def weeklyTrendStatus (bars : List PriceBar) : String :=
  let wc := weeklyCloses bars
  if 5 ≤ wc.length then
    let ma5 := (wc.drop (wc.length - 5)).sum / 5
    if ma5 < wc.getLastD 0 then "UP" else "DOWN"
  else "Unknown"

/-- Step 4 of `calculate_indicators`: the volume ratio — latest volume over
its trailing 5-bar mean, defaulting to 1 when that mean is not positive.
(Source name: `vol_ratio`.) -/
def lastVolOverMa5 (volumes : List ℚ) : ℚ :=
  let ma5 := (volumes.drop (volumes.length - 5)).sum / 5
  if 0 < ma5 then volumes.getLastD 0 / ma5 else 1

/-- Step 7 of `calculate_indicators`: the quantitative score — base 50 plus
the seven independent additive rules, clamped to [0,100].  `rsi` is the
rounded reading value; the other arguments are the raw local variables the
source compares. -/
def quantScore (rsi macd_hist : ℚ) (trend_status : String)
    (vr obv_slope : ℚ) : ℤ :=
  let s0 : ℤ := 50
  let s1 := if rsi < 30 then s0 + 15 else s0
  let s2 := if 70 < rsi then s1 - 10 else s1
  let s3 := if 0 < macd_hist then s2 + 10 else s2
  let s4 := if trend_status = "UP" then s3 + 20 else s3
  let s5 := if 6/5 < vr then s4 + 5 else s4
  let s6 := if vr < 3/5 then s5 - 15 else s5
  let s7 := if 0 < obv_slope then s6 + 10 else s6
  max 0 (min 100 s7)

/-- Rule A of the CRO signal (step 8): weekly downtrend raises the risk level
to 1 (WARN) when the current level is below 1. -/
def croRuleA (trend_status : String) (st : ℕ × String × CroComment) :
    ℕ × String × CroComment :=
  if trend_status = "DOWN" then
    (if st.1 < 1 then (1, "WARN", .weeklyDown) else st)
  else st

/-- Rule B of the CRO signal: liquidity drought (volume ratio below 0.6)
raises the risk level to 3 (VETO) when the current level is below 3. -/
def croRuleB (vr : ℚ) (st : ℕ × String × CroComment) :
    ℕ × String × CroComment :=
  if vr < 3/5 then
    (if st.1 < 3 then (3, "VETO", .liquidityDrought vr) else st)
  else st

/-- Rule C of the CRO signal: extreme overbought (rounded RSI above 85) raises
the risk level to 3 (VETO) when the current level is below 3. -/
def croRuleC (rsi : ℚ) (st : ℕ × String × CroComment) :
    ℕ × String × CroComment :=
  if 85 < rsi then
    (if st.1 < 3 then (3, "VETO", .overbought rsi) else st)
  else st

/-- Step 8 of `calculate_indicators`: the CRO signal — rules A, B, C applied
in the source's fixed order starting from level 0 / PASS. -/
def croSignal (trend_status : String) (vr rsi : ℚ) :
    ℕ × String × CroComment :=
  croRuleC rsi (croRuleB vr (croRuleA trend_status (0, "PASS", .normal)))

/-- The values `calculate_indicators` obtains from the external `ta` indicator
library on the (cleaned, volume-projected) series: RSI(14), the last two
MACD(26,12,9) histogram values with line and signal, Bollinger %B(20,2), and
the OBV series.  The library is a third-party dependency of the repository,
so its outputs are parameters of the embedding. -/
structure TaResults where
  rsi_val : ℚ
  macd_line : ℚ
  macd_sig : ℚ
  macd_hist : ℚ
  macd_prev_hist : ℚ
  pct_b : ℚ
  obv : List ℚ
deriving Repr, DecidableEq

/-- The MACD qualitative label (lines 154–162 of the source). -/
def macdTrendLabel (hist prev_hist : ℚ) : String :=
  if 0 < hist then (if hist < prev_hist then "红柱缩短" else "金叉")
  else if hist < 0 ∧ prev_hist < hist then "绿柱缩短"
  else "死叉"

/-- The main path of `calculate_indicators` (steps 1–8 after the guard), over
bars whose last volume already reflects the intraday projection (the
projection itself, lines 88–131, rescales only the latest bar's volume from
wall-clock data before any indicator is read). -/
def mainIndicators (bars : List PriceBar) (ta : TaResults) : TechnicalReading :=
  let volumes := bars.map (·.volume)
  let vr := lastVolOverMa5 volumes
  let obv_slope :=
    if 10 ≤ ta.obv.length then
      (ta.obv.getLastD 0 - ta.obv.getD (ta.obv.length - 10) 0) / 10
    else 0
  let rsiR := pyRound ta.rsi_val 2
  let trend_status := weeklyTrendStatus bars
  let cro := croSignal trend_status vr rsiR
  { rsi := rsiR
    macd := { line := pyRound ta.macd_line 3
              signal := pyRound ta.macd_sig 3
              hist := pyRound ta.macd_hist 3
              trend := macdTrendLabel ta.macd_hist ta.macd_prev_hist }
    risk_factors := { bollinger_pct_b := pyRound ta.pct_b 2
                      vr := pyRound vr 2
                      divergence := none }
    obv_slope := pyRound (obv_slope / 10000) 2
    trend_weekly := trend_status
    price := (bars.map (·.close)).getLastD 0
    quant_score := quantScore rsiR ta.macd_hist trend_status vr obv_slope
    final_score := none
    ai_adjustment := none
    valuation_desc := none
    quant_reasons := none
    tech_cro_signal := cro.2.1
    tech_cro_comment := cro.2.2 }

/-- `TechnicalAnalyzer.calculate_indicators`: a `None` frame, an empty frame,
or fewer than 30 bars short-circuits to the safe-default reading; otherwise
the main indicator path runs.  The function is total — every input yields a
reading, never an exception. -/
def calculate_indicators (df : Option (List PriceBar)) (ta : TaResults) :
    TechnicalReading :=
  match df with
  | none => get_safe_default_indicators "K线数据不足(<30)"
  | some bars =>
      if bars.length < 30 then get_safe_default_indicators "K线数据不足(<30)"
      else mainIndicators bars ta

/-- A 40-bar series of identical flat bars (close 10, volume 100) on 40
consecutive calendar days. -/
def flatBars40 : List PriceBar :=
  (List.range 40).map (fun d => ⟨d, 10, 10, 10, 10, 100⟩)

/-- A concrete reading shaped like the main indicator path's output (no
decision-engine keys yet), used to exercise the decision engine at a chosen
quantitative score, risk signal and price. -/
def mkReading (score : ℤ) (signal : String) (price : ℚ) : TechnicalReading :=
  { rsi := 50
    macd := { line := 0, signal := 0, hist := 0, trend := "金叉" }
    risk_factors := { bollinger_pct_b := 1/2, vr := 1, divergence := none }
    obv_slope := 0
    trend_weekly := "UP"
    price := price
    quant_score := score
    final_score := none
    ai_adjustment := none
    valuation_desc := none
    quant_reasons := none
    tech_cro_signal := signal
    tech_cro_comment := .normal }

/-- The ledger state after buying 1000 at price 10 starting from nothing. -/
def posBuy1 : Position := add_trade Position.empty 1000 10 false

/-- The ledger state after a further buy of 500 at price 20. -/
def posBuy2 : Position := add_trade posBuy1 500 20 false

/-! ## Helper lemmas (rounding) -/

theorem roundHalfEven_abs_sub_le (q : ℚ) : |(roundHalfEven q : ℚ) - q| ≤ 1/2 := by
  have h0 : (⌊q⌋ : ℚ) ≤ q := Int.floor_le q
  have h1 : q < ⌊q⌋ + 1 := Int.lt_floor_add_one q
  unfold roundHalfEven
  split_ifs with hf hg hp <;>
    (rw [abs_le]; constructor <;> push_cast <;> linarith)

theorem roundHalfEven_intCast (n : ℤ) : roundHalfEven (n : ℚ) = n := by
  unfold roundHalfEven
  rw [Int.floor_intCast]
  norm_num

theorem pyRound4_abs_sub_le (q : ℚ) : |pyRound q 4 - q| ≤ 1/20000 := by
  have h := roundHalfEven_abs_sub_le (q * 10 ^ 4)
  have he : pyRound q 4 - q =
      ((roundHalfEven (q * 10 ^ 4) : ℚ) - q * 10 ^ 4) / 10 ^ 4 := by
    unfold pyRound
    field_simp
    ring
  rw [he, abs_div, abs_of_pos (show (0:ℚ) < 10 ^ 4 by norm_num),
    div_le_iff₀ (show (0:ℚ) < 10 ^ 4 by norm_num)]
  nlinarith

theorem pyRound4_eq_self_iff (q : ℚ) :
    pyRound q 4 = q ↔ ∃ n : ℤ, q * 10000 = n := by
  constructor
  · intro h
    refine ⟨roundHalfEven (q * 10 ^ 4), ?_⟩
    unfold pyRound at h
    rw [div_eq_iff (show ((10:ℚ) ^ 4) ≠ 0 by norm_num)] at h
    rw [show ((10000:ℚ)) = 10 ^ 4 by norm_num]
    exact h.symm
  · rintro ⟨n, hn⟩
    have h4 : q * 10 ^ 4 = (n : ℚ) := by
      rw [show ((10:ℚ) ^ 4) = 10000 by norm_num]
      exact hn
    unfold pyRound
    rw [h4, roundHalfEven_intCast, div_eq_iff (show ((10:ℚ) ^ 4) ≠ 0 by norm_num)]
    exact h4.symm

/-! ## Helper lemmas (ledger) -/

theorem reachablePos_invariant (p : Position) (h : ReachablePos p) :
    0 ≤ p.shares ∧ (p.shares = 0 → p.cost = 0 ∧ p.held_days = 0) := by
  induction h with
  | init => exact ⟨le_refl 0, fun _ => ⟨rfl, rfl⟩⟩
  | buy p a price ha _ ih =>
      unfold add_trade
      by_cases hpr : price ≤ 0
      · rw [if_pos hpr]; exact ih
      · rw [if_neg hpr]
        push_neg at hpr
        have hch : 0 < a / price := div_pos ha hpr
        simp only [Bool.false_eq_true, if_false, buyUpdate]
        have hsh : 0 < p.shares + a / price := by linarith [ih.1]
        exact ⟨le_of_lt hsh, fun h0 => absurd h0 (ne_of_gt hsh)⟩
  | sell p v price _ ih =>
      unfold add_trade
      by_cases hpr : price ≤ 0
      · rw [if_pos hpr]; exact ih
      · rw [if_neg hpr]
        simp only [if_true, sellUpdate]
        refine ⟨le_max_left 0 _, fun h0 => ?_⟩
        simp only at h0
        rw [if_pos h0, if_pos h0]
        exact ⟨rfl, rfl⟩

/-! ## Claim theorems -/

/-- Claim C2, counterexample: a buy of amount 0 at price 10 on the empty
position is a reachable `add_trade` state with `shares = 0` yet
`held_days = 1`, so the invariant "shares = 0 implies cost = 0 and
held_days = 0" does not hold for arbitrary call sequences. -/
theorem C2_counterexample :
    ReachableTrades (add_trade Position.empty 0 10 false) ∧
    (add_trade Position.empty 0 10 false).shares = 0 ∧
    ¬ ((add_trade Position.empty 0 10 false).cost = 0 ∧
       (add_trade Position.empty 0 10 false).held_days = 0) :=
  ⟨.step Position.empty 0 10 false .init,
   by norm_num [add_trade, buyUpdate, Position.empty],
   by norm_num [add_trade, buyUpdate, Position.empty]⟩

/-- Claim C2 (amended): for every sequence of `add_trade` calls from the
empty position in which every buy carries a positive amount, each reachable
state with `shares = 0` has `cost = 0` and `held_days = 0`. -/
theorem C2_zero_shares_reset (p : Position) (h : ReachablePos p)
    (h0 : p.shares = 0) : p.cost = 0 ∧ p.held_days = 0 :=
  (reachablePos_invariant p h).2 h0

/-- Claim C2, witness: buy 1000 at 10 then sell 2000 worth at 10 — the
position returns to zero shares with cost and holding days reset. -/
theorem C2_witness :
    ReachablePos (add_trade (add_trade Position.empty 1000 10 false) 2000 10 true) ∧
    (add_trade (add_trade Position.empty 1000 10 false) 2000 10 true).shares = 0 ∧
    ((add_trade (add_trade Position.empty 1000 10 false) 2000 10 true).cost = 0 ∧
     (add_trade (add_trade Position.empty 1000 10 false) 2000 10 true).held_days = 0) :=
  ⟨.sell _ 2000 10 (.buy _ 1000 10 (by norm_num) .init),
   by norm_num [add_trade, buyUpdate, sellUpdate, Position.empty, min_def, max_def],
   C2_zero_shares_reset _ (.sell _ 2000 10 (.buy _ 1000 10 (by norm_num) .init))
     (by norm_num [add_trade, buyUpdate, sellUpdate, Position.empty, min_def, max_def])⟩

/-- Claim C8: a buy of amount 1000 at price 10 on the empty position yields
shares 100, cost 10, held days 1; a further buy of 500 at price 20 yields
shares 125 and cost 12, the weighted-average
`(old_shares*old_cost + amount) / (old_shares + amount/price)`, with holding
days staying at 1. -/
theorem C8_two_buys :
    posBuy1.shares = 100 ∧ posBuy1.cost = 10 ∧ posBuy1.held_days = 1 ∧
    posBuy2.shares = 125 ∧ posBuy2.cost = 12 ∧ posBuy2.held_days = 1 ∧
    posBuy2.cost = buyExactCost posBuy1 500 20 ∧
    buyExactCost posBuy1 500 20 = (100 * 10 + 500) / (100 + 500 / 20) := by
  norm_num [posBuy1, posBuy2, add_trade, buyUpdate, Position.empty, buyExactCost,
    pyRound, roundHalfEven]

/-- Claim C10: on a buy (positive price, positive resulting shares) the stored
cost is the exact weighted-average cost rounded half-to-even at 4 decimals;
it differs from the exact value by at most 0.00005, and equals it exactly iff
the exact value has at most 4 decimal places. -/
theorem C10_cost_rounding (pos : Position) (a price : ℚ) (hp : 0 < price)
    (ht : 0 < pos.shares + a / price) :
    (add_trade pos a price false).cost = pyRound (buyExactCost pos a price) 4 ∧
    |(add_trade pos a price false).cost - buyExactCost pos a price| ≤ 1/20000 ∧
    ((add_trade pos a price false).cost = buyExactCost pos a price ↔
      ∃ n : ℤ, buyExactCost pos a price * 10000 = n) := by
  have hc : (add_trade pos a price false).cost =
      pyRound (buyExactCost pos a price) 4 := by
    unfold add_trade buyUpdate
    rw [if_neg (not_le.2 hp)]
    simp only [Bool.false_eq_true, if_false]
    rw [if_pos ht]
  refine ⟨hc, ?_, ?_⟩
  · rw [hc]; exact pyRound4_abs_sub_le _
  · rw [hc]; exact pyRound4_eq_self_iff _

/-- Claim C10, witness: the first buy of 1000 at 10 — exact cost 10, stored
exactly (10 has no fractional digits). -/
theorem C10_witness :
    (0:ℚ) < 10 ∧ (0:ℚ) < Position.empty.shares + 1000 / 10 ∧
    ((add_trade Position.empty 1000 10 false).cost =
        pyRound (buyExactCost Position.empty 1000 10) 4 ∧
     |(add_trade Position.empty 1000 10 false).cost -
        buyExactCost Position.empty 1000 10| ≤ 1/20000 ∧
     ((add_trade Position.empty 1000 10 false).cost =
        buyExactCost Position.empty 1000 10 ↔
       ∃ n : ℤ, buyExactCost Position.empty 1000 10 * 10000 = n)) :=
  ⟨by norm_num, by norm_num [Position.empty],
   C10_cost_rounding Position.empty 1000 10 (by norm_num)
     (by norm_num [Position.empty])⟩

/-- Claim C1: a `None` frame, an empty frame, or fewer than 30 bars makes
`calculate_indicators` return exactly the safe-default reading — quantitative
score 0, risk signal VETO, insufficient-data comment — and, being total, it
raises no exception. -/
theorem C1_short_input_safe_default (df : Option (List PriceBar))
    (ta : TaResults)
    (h : df = none ∨ ∃ bars, df = some bars ∧ bars.length < 30) :
    calculate_indicators df ta = get_safe_default_indicators "K线数据不足(<30)" ∧
    (calculate_indicators df ta).quant_score = 0 ∧
    (calculate_indicators df ta).tech_cro_signal = "VETO" ∧
    (calculate_indicators df ta).tech_cro_comment =
      CroComment.sysRisk "K线数据不足(<30)" := by
  have he : calculate_indicators df ta =
      get_safe_default_indicators "K线数据不足(<30)" := by
    rcases h with rfl | ⟨bars, rfl, hlen⟩
    · rfl
    · simp [calculate_indicators, hlen]
  refine ⟨he, ?_, ?_, ?_⟩ <;> rw [he] <;> rfl


/-- Claim C1, witness: the `None` input (taking arbitrary zero indicator
library results) produces the safe-default reading. -/
theorem C1_witness :
    ((none : Option (List PriceBar)) = none ∨
      ∃ bars, (none : Option (List PriceBar)) = some bars ∧ bars.length < 30) ∧
    (calculate_indicators none ⟨0, 0, 0, 0, 0, 0, []⟩ =
        get_safe_default_indicators "K线数据不足(<30)" ∧
     (calculate_indicators none ⟨0, 0, 0, 0, 0, 0, []⟩).quant_score = 0 ∧
     (calculate_indicators none ⟨0, 0, 0, 0, 0, 0, []⟩).tech_cro_signal = "VETO" ∧
     (calculate_indicators none ⟨0, 0, 0, 0, 0, 0, []⟩).tech_cro_comment =
       CroComment.sysRisk "K线数据不足(<30)") :=
  ⟨Or.inl rfl, C1_short_input_safe_default none ⟨0, 0, 0, 0, 0, 0, []⟩ (Or.inl rfl)⟩

theorem weeklyTrend_flat40 : weeklyTrendStatus flatBars40 = "DOWN" := by
  have h : weeklyCloses flatBars40 = [10, 10, 10, 10, 10, 10] := rfl
  unfold weeklyTrendStatus
  rw [h]
  norm_num [List.getLastD]

/-- Claim C5, counterexample: on the 40-bar flat series the weekly resample
produces 6 weekly closes, so the weekly trend is "DOWN" (a flat close is not
strictly above its 5-week average), not "Unknown"; with the claim's own
premise of no volume/RSI extremes the risk signal is "WARN", not "PASS"
(the score 50 part alone holds). -/
theorem C5_counterexample :
    weeklyTrendStatus flatBars40 = "DOWN" ∧
    weeklyTrendStatus flatBars40 ≠ "Unknown" ∧
    (croSignal (weeklyTrendStatus flatBars40) 1 50).2.1 = "WARN" ∧
    (croSignal (weeklyTrendStatus flatBars40) 1 50).2.1 ≠ "PASS" ∧
    quantScore 50 0 (weeklyTrendStatus flatBars40) 1 0 = 50 := by
  have h := weeklyTrend_flat40
  rw [h]
  have hw : (croSignal "DOWN" 1 50).2.1 = "WARN" := by
    norm_num [croSignal, croRuleA, croRuleB, croRuleC]
  refine ⟨rfl, by simp, hw, by rw [hw]; simp, ?_⟩
  simp only [quantScore]
  norm_num
  decide

/-- Claim C5 (amended): for the 40-bar flat series the weekly trend is "DOWN"
(not "Unknown"); under the claim's no-extremes premise the quantitative score
is 50 but the derived risk signal is "WARN" — and whatever the volume ratio
and RSI turn out to be, the signal is never "PASS". -/
theorem C5_flat_series (rsi vr obv hist : ℚ)
    (h1 : ¬ rsi < 30) (h2 : ¬ 70 < rsi) (h3 : ¬ 6/5 < vr) (h4 : ¬ vr < 3/5)
    (h5 : ¬ 0 < obv) (h6 : ¬ 0 < hist) :
    weeklyTrendStatus flatBars40 = "DOWN" ∧
    quantScore rsi hist (weeklyTrendStatus flatBars40) vr obv = 50 ∧
    (croSignal (weeklyTrendStatus flatBars40) vr rsi).2.1 = "WARN" ∧
    (∀ v r, (croSignal (weeklyTrendStatus flatBars40) v r).2.1 ≠ "PASS") := by
  have ht := weeklyTrend_flat40
  have h85 : ¬ 85 < rsi := fun hc => h2 (by linarith)
  refine ⟨ht, ?_, ?_, ?_⟩
  · rw [ht]; simp [quantScore, h1, h2, h3, h4, h5, h6]
  · rw [ht]; simp [croSignal, croRuleA, croRuleB, croRuleC, h4, h85]
  · intro v r
    rw [ht]
    simp only [croSignal, croRuleA, croRuleB, croRuleC]
    split_ifs <;> simp_all

/-- Claim C5, witness: the no-extremes premise instantiated at RSI 50, volume
ratio 1, zero OBV slope and zero histogram. -/
theorem C5_witness :
    (¬ (50:ℚ) < 30) ∧ (¬ (70:ℚ) < 50) ∧ (¬ (6/5:ℚ) < 1) ∧ (¬ (1:ℚ) < 3/5) ∧
    (¬ (0:ℚ) < 0) ∧ (¬ (0:ℚ) < 0) ∧
    (weeklyTrendStatus flatBars40 = "DOWN" ∧
     quantScore 50 0 (weeklyTrendStatus flatBars40) 1 0 = 50 ∧
     (croSignal (weeklyTrendStatus flatBars40) 1 50).2.1 = "WARN" ∧
     (∀ v r, (croSignal (weeklyTrendStatus flatBars40) v r).2.1 ≠ "PASS")) :=
  ⟨by norm_num, by norm_num, by norm_num, by norm_num, by norm_num, by norm_num,
   C5_flat_series 50 1 0 0 (by norm_num) (by norm_num) (by norm_num)
     (by norm_num) (by norm_num) (by norm_num)⟩

/-- Claim C6: with rounded RSI above 85 and volume ratio at least 0.6, the CRO
signal is VETO with the extreme-overbought reason, whatever the weekly trend;
and each of the three rules can only raise the risk level, never lower it. -/
theorem C6_overbought_veto (trend : String) (vr rsi : ℚ)
    (h1 : 85 < rsi) (h2 : 3/5 ≤ vr) :
    (croSignal trend vr rsi).2.1 = "VETO" ∧
    (croSignal trend vr rsi).2.2 = CroComment.overbought rsi ∧
    (∀ t st, st.1 ≤ (croRuleA t st).1) ∧
    (∀ v st, st.1 ≤ (croRuleB v st).1) ∧
    (∀ r st, st.1 ≤ (croRuleC r st).1) := by
  have hb : ¬ vr < 3/5 := not_lt.2 h2
  refine ⟨?_, ?_, ?_, ?_, ?_⟩
  · by_cases hd : trend = "DOWN" <;>
      simp [croSignal, croRuleA, croRuleB, croRuleC, hd, hb, h1]
  · by_cases hd : trend = "DOWN" <;>
      simp [croSignal, croRuleA, croRuleB, croRuleC, hd, hb, h1]
  · intro t st
    unfold croRuleA
    split_ifs with h1 h2
    · simp only []
      omega
    · exact le_refl _
    · exact le_refl _
  · intro v st
    unfold croRuleB
    split_ifs with h1 h2
    · simp only []
      omega
    · exact le_refl _
    · exact le_refl _
  · intro r st
    unfold croRuleC
    split_ifs with h1 h2
    · simp only []
      omega
    · exact le_refl _
    · exact le_refl _

/-- Claim C6, witness: RSI 90, volume ratio 1, weekly trend UP. -/
theorem C6_witness :
    (85:ℚ) < 90 ∧ (3/5:ℚ) ≤ 1 ∧
    ((croSignal "UP" 1 90).2.1 = "VETO" ∧
     (croSignal "UP" 1 90).2.2 = CroComment.overbought 90 ∧
     (∀ t st, st.1 ≤ (croRuleA t st).1) ∧
     (∀ v st, st.1 ≤ (croRuleB v st).1) ∧
     (∀ r st, st.1 ≤ (croRuleC r st).1)) :=
  ⟨by norm_num, by norm_num,
   C6_overbought_veto "UP" 1 90 (by norm_num) (by norm_num)⟩


/-! ## Helper lemmas (decision engine) -/

theorem valuationStage_nonpos_of_neg (st : ℚ × List Reason) (v : ℚ) (s : String)
    (h : st.1 < 0) : (valuationStage st v s).1 ≤ 0 := by
  unfold valuationStage
  rw [if_neg (by linarith : ¬ 0 < st.1), if_pos h]
  split_ifs <;> (try simp) <;> linarith

theorem riskVetoStage_eq_of_nonpos (c : String) (st : ℚ × List Reason)
    (h : st.1 ≤ 0) : (riskVetoStage c st).1 = st.1 := by
  unfold riskVetoStage
  rw [if_neg (fun hc => absurd hc.2 (not_lt.2 h))]

theorem lockStage_zero (shares : ℚ) (hd : ℕ) (st : ℚ × List Reason)
    (hs : 0 < shares) (hh : hd < 7) (h : st.1 ≤ 0) :
    (lockStage shares hd st).1 = 0 := by
  unfold lockStage
  rcases lt_or_eq_of_le h with hlt | heq
  · rw [if_pos ⟨hlt, hs, hh⟩]
  · rw [if_neg (fun hc => absurd hc.1 (not_lt.2 (le_of_eq heq.symm)))]
    exact heq

/-- Claim C3: with a held position (shares positive, fewer than 7 holding
days) and a negative tactical tier multiplier, the decision is hold — buy
amount 0, no sell, sell value 0 — for every valuation multiplier. -/
theorem C3_lock_in_hold (tech : TechnicalReading) (ai_adj : ℤ)
    (ai_decision : String) (val_mult : ℚ) (val_desc : String)
    (base_amt max_daily : ℚ) (pos : PositionView) (strategy_type : String)
    (hs : 0 < pos.shares) (hd : pos.held_days < 7)
    (hneg : (tierStage (tacticalScore tech.quant_score ai_adj ai_decision)).1 < 0) :
    (calculate_position_v13 tech ai_adj ai_decision val_mult val_desc base_amt
        max_daily pos strategy_type).final_amt = 0 ∧
    (calculate_position_v13 tech ai_adj ai_decision val_mult val_desc base_amt
        max_daily pos strategy_type).label = "观望" ∧
    (calculate_position_v13 tech ai_adj ai_decision val_mult val_desc base_amt
        max_daily pos strategy_type).is_sell = false ∧
    (calculate_position_v13 tech ai_adj ai_decision val_mult val_desc base_amt
        max_daily pos strategy_type).sell_val = 0 := by
  have hv := valuationStage_nonpos_of_neg
    (tierStage (tacticalScore tech.quant_score ai_adj ai_decision))
    val_mult strategy_type hneg
  have hr := riskVetoStage_eq_of_nonpos tech.tech_cro_signal _ hv
  have hm : (multStages tech ai_adj ai_decision val_mult pos strategy_type).1 = 0 := by
    unfold multStages
    exact lockStage_zero pos.shares pos.held_days _ hs hd (le_of_eq_of_le hr hv)
  simp only [calculate_position_v13, hm]
  norm_num

/-- Claim C3, witness: score 20 (tier −1), position of 100 shares held 3
days, valuation multiplier 1. -/
theorem C3_witness :
    (0:ℚ) < (PositionView.mk 100 10 3).shares ∧
    (PositionView.mk 100 10 3).held_days < 7 ∧
    (tierStage (tacticalScore (mkReading 20 "PASS" 10).quant_score 0 "PASS")).1 < 0 ∧
    ((calculate_position_v13 (mkReading 20 "PASS" 10) 0 "PASS" 1 "估值中性" 1000
        5000 (PositionView.mk 100 10 3) "core").final_amt = 0 ∧
     (calculate_position_v13 (mkReading 20 "PASS" 10) 0 "PASS" 1 "估值中性" 1000
        5000 (PositionView.mk 100 10 3) "core").label = "观望" ∧
     (calculate_position_v13 (mkReading 20 "PASS" 10) 0 "PASS" 1 "估值中性" 1000
        5000 (PositionView.mk 100 10 3) "core").is_sell = false ∧
     (calculate_position_v13 (mkReading 20 "PASS" 10) 0 "PASS" 1 "估值中性" 1000
        5000 (PositionView.mk 100 10 3) "core").sell_val = 0) :=
  ⟨by norm_num, by norm_num,
   by simp [tierStage, tacticalScore, mkReading],
   C3_lock_in_hold (mkReading 20 "PASS" 10) 0 "PASS" 1 "估值中性" 1000 5000
     (PositionView.mk 100 10 3) "core" (by norm_num) (by norm_num)
     (by simp [tierStage, tacticalScore, mkReading])⟩


theorem withReasons_final_score (t : TechnicalReading) (rs : List Reason) :
    (withReasons t rs).final_score = t.final_score := by
  unfold withReasons
  split_ifs <;> rfl

theorem multStages_reject (tech : TechnicalReading) (ai_adj : ℤ) (val_mult : ℚ)
    (pos : PositionView) (strategy_type : String) :
    (multStages tech ai_adj "REJECT" val_mult pos strategy_type).1 =
      if 6/5 < val_mult then 0
      else if 0 < pos.shares ∧ pos.held_days < 7 then 0
      else if val_mult < 4/5 then -(3/2) else -1 := by
  have hts : tacticalScore tech.quant_score ai_adj "REJECT" = 0 := by
    simp [tacticalScore]
  unfold multStages
  rw [hts]
  by_cases hv : 6/5 < val_mult
  · have hv2 : ¬ val_mult < 4/5 := by linarith
    by_cases hl : 0 < pos.shares ∧ pos.held_days < 7 <;>
      norm_num [tierStage, valuationStage, riskVetoStage, lockStage, hv, hv2, hl]
  · by_cases hv2 : val_mult < 4/5 <;>
      by_cases hl : 0 < pos.shares ∧ pos.held_days < 7 <;>
        norm_num [tierStage, valuationStage, riskVetoStage, lockStage, hv, hv2, hl]

/-- Claim C4, counterexample: advisory REJECT with raw technical score 90,
an empty position and valuation multiplier 1 — the tactical score is indeed
forced to 0, but 0 lands in the breakdown tier (multiplier −1), so the
emitted action is a sell, not a hold. -/
theorem C4_counterexample :
    (calculate_position_v13 (mkReading 90 "PASS" 10) 0 "REJECT" 1 "估值中性"
        1000 5000 (PositionView.mk 0 0 0) "core").tech.final_score = some 0 ∧
    (calculate_position_v13 (mkReading 90 "PASS" 10) 0 "REJECT" 1 "估值中性"
        1000 5000 (PositionView.mk 0 0 0) "core").label = "卖出" ∧
    (calculate_position_v13 (mkReading 90 "PASS" 10) 0 "REJECT" 1 "估值中性"
        1000 5000 (PositionView.mk 0 0 0) "core").is_sell = true ∧
    (calculate_position_v13 (mkReading 90 "PASS" 10) 0 "REJECT" 1 "估值中性"
        1000 5000 (PositionView.mk 0 0 0) "core").label ≠ "观望" := by
  norm_num [calculate_position_v13, multStages, tacticalScore, tierStage,
    valuationStage, riskVetoStage, lockStage, withReasons, mkReading]
  decide

/-- Claim C4 (amended): advisory REJECT forces the tactical score to 0 and
never yields a buy; the action is hold exactly when the valuation multiplier
exceeds 1.2 or the position sits in the 7-day lock window, and a sell
otherwise. -/
theorem C4_reject_forces_zero (tech : TechnicalReading) (ai_adj : ℤ)
    (val_mult : ℚ) (val_desc : String) (base_amt max_daily : ℚ)
    (pos : PositionView) (strategy_type : String) :
    (calculate_position_v13 tech ai_adj "REJECT" val_mult val_desc base_amt
        max_daily pos strategy_type).tech.final_score = some 0 ∧
    (calculate_position_v13 tech ai_adj "REJECT" val_mult val_desc base_amt
        max_daily pos strategy_type).final_amt = 0 ∧
    (calculate_position_v13 tech ai_adj "REJECT" val_mult val_desc base_amt
        max_daily pos strategy_type).label ≠ "买入" ∧
    ((calculate_position_v13 tech ai_adj "REJECT" val_mult val_desc base_amt
        max_daily pos strategy_type).label = "观望" ↔
      (6/5 < val_mult ∨ (0 < pos.shares ∧ pos.held_days < 7))) ∧
    ((calculate_position_v13 tech ai_adj "REJECT" val_mult val_desc base_amt
        max_daily pos strategy_type).label = "卖出" ↔
      ¬ (6/5 < val_mult ∨ (0 < pos.shares ∧ pos.held_days < 7))) := by
  have hm := multStages_reject tech ai_adj val_mult pos strategy_type
  have hts : tacticalScore tech.quant_score ai_adj "REJECT" = 0 := by
    simp [tacticalScore]
  by_cases hv : 6/5 < val_mult
  · simp only [calculate_position_v13, hm, hts, if_pos hv]
    norm_num [withReasons_final_score, hv]
    decide
  · by_cases hl : 0 < pos.shares ∧ pos.held_days < 7
    · simp only [calculate_position_v13, hm, hts, if_neg hv, if_pos hl]
      norm_num [withReasons_final_score, hv, hl]
      decide
    · by_cases hv2 : val_mult < 4/5
      · simp only [calculate_position_v13, hm, hts, if_neg hv, if_neg hl, if_pos hv2]
        norm_num [withReasons_final_score, hv, hl]
        decide
      · simp only [calculate_position_v13, hm, hts, if_neg hv, if_neg hl, if_neg hv2]
        norm_num [withReasons_final_score, hv, hl]
        decide


/-- Claim C7, counterexample: base amount 999, score 70 (tier 1), valuation
multiplier 1.1 — the blended multiplier is 1.1; the code emits
`int(999 × 1.1) = 1098` while the claimed `clamp(round(999 × 1.1), 0, 5000)`
is 1099. -/
theorem C7_counterexample :
    (multStages (mkReading 70 "PASS" 10) 0 "PASS" (11/10)
        (PositionView.mk 0 0 0) "core").1 = 11/10 ∧
    (calculate_position_v13 (mkReading 70 "PASS" 10) 0 "PASS" (11/10) "估值偏低"
        999 5000 (PositionView.mk 0 0 0) "core").final_amt = 1098 ∧
    max 0 (min (round ((999:ℚ) * (11/10))) (round (5000:ℚ))) = 1099 ∧
    (1098 : ℤ) ≠ 1099 := by
  have hm : (multStages (mkReading 70 "PASS" 10) 0 "PASS" (11/10)
      (PositionView.mk 0 0 0) "core").1 = 11/10 := by
    simp [multStages, tacticalScore, tierStage, valuationStage,
      riskVetoStage, lockStage, mkReading]
    norm_num
  refine ⟨hm, ?_, ?_, by decide⟩
  · simp only [calculate_position_v13, hm]
    norm_num [pyInt]
  · rw [round_eq, round_eq]
    norm_num

/-- Claim C7 (amended): whenever the final blended multiplier is positive,
the buy amount equals `clamp(trunc(base_amt × multiplier), 0,
trunc(max_daily))` — Python `int` truncates rather than rounds — and in
particular it always lies in [0, max_daily]. -/
theorem C7_buy_amount_clamped (tech : TechnicalReading) (ai_adj : ℤ)
    (ai_decision : String) (val_mult : ℚ) (val_desc : String)
    (base_amt max_daily : ℚ) (pos : PositionView) (strategy_type : String)
    (hmd : 0 ≤ max_daily)
    (hpos : 0 < (multStages tech ai_adj ai_decision val_mult pos strategy_type).1) :
    (calculate_position_v13 tech ai_adj ai_decision val_mult val_desc base_amt
        max_daily pos strategy_type).final_amt =
      max 0 (min (pyInt (base_amt *
          (multStages tech ai_adj ai_decision val_mult pos strategy_type).1))
        (pyInt max_daily)) ∧
    0 ≤ (calculate_position_v13 tech ai_adj ai_decision val_mult val_desc
        base_amt max_daily pos strategy_type).final_amt ∧
    ((calculate_position_v13 tech ai_adj ai_decision val_mult val_desc base_amt
        max_daily pos strategy_type).final_amt : ℚ) ≤ max_daily ∧
    (calculate_position_v13 tech ai_adj ai_decision val_mult val_desc base_amt
        max_daily pos strategy_type).label = "买入" := by
  have ha : (calculate_position_v13 tech ai_adj ai_decision val_mult val_desc
      base_amt max_daily pos strategy_type).final_amt =
      max 0 (min (pyInt (base_amt *
          (multStages tech ai_adj ai_decision val_mult pos strategy_type).1))
        (pyInt max_daily)) := by
    simp only [calculate_position_v13, if_pos hpos]
  have hB0 : (0:ℤ) ≤ pyInt max_daily := by
    unfold pyInt
    rw [if_pos hmd]
    exact Int.floor_nonneg.2 hmd
  have hBle : ((pyInt max_daily : ℤ) : ℚ) ≤ max_daily := by
    unfold pyInt
    rw [if_pos hmd]
    exact Int.floor_le max_daily
  have hle : max 0 (min (pyInt (base_amt *
      (multStages tech ai_adj ai_decision val_mult pos strategy_type).1))
      (pyInt max_daily)) ≤ pyInt max_daily :=
    max_le hB0 (min_le_right _ _)
  refine ⟨ha, ?_, ?_, ?_⟩
  · rw [ha]
    exact le_max_left 0 _
  · rw [ha]
    calc ((max 0 (min (pyInt (base_amt *
          (multStages tech ai_adj ai_decision val_mult pos strategy_type).1))
          (pyInt max_daily)) : ℤ) : ℚ)
        ≤ ((pyInt max_daily : ℤ) : ℚ) := by exact_mod_cast hle
      _ ≤ max_daily := hBle
  · simp only [calculate_position_v13, if_pos hpos]

/-- Claim C7, witness: score 70, valuation multiplier 1, base 1000, cap 5000
— multiplier 1, buy of 1000. -/
theorem C7_witness :
    (0:ℚ) ≤ 5000 ∧
    0 < (multStages (mkReading 70 "PASS" 10) 0 "PASS" 1
        (PositionView.mk 0 0 0) "core").1 ∧
    ((calculate_position_v13 (mkReading 70 "PASS" 10) 0 "PASS" 1 "估值中性" 1000
        5000 (PositionView.mk 0 0 0) "core").final_amt =
      max 0 (min (pyInt (1000 * (multStages (mkReading 70 "PASS" 10) 0 "PASS" 1
          (PositionView.mk 0 0 0) "core").1)) (pyInt 5000)) ∧
     0 ≤ (calculate_position_v13 (mkReading 70 "PASS" 10) 0 "PASS" 1 "估值中性"
        1000 5000 (PositionView.mk 0 0 0) "core").final_amt ∧
     ((calculate_position_v13 (mkReading 70 "PASS" 10) 0 "PASS" 1 "估值中性" 1000
        5000 (PositionView.mk 0 0 0) "core").final_amt : ℚ) ≤ 5000 ∧
     (calculate_position_v13 (mkReading 70 "PASS" 10) 0 "PASS" 1 "估值中性" 1000
        5000 (PositionView.mk 0 0 0) "core").label = "买入") :=
  ⟨by norm_num,
   by simp [multStages, tacticalScore, tierStage, valuationStage,
     riskVetoStage, lockStage, mkReading]
      norm_num,
   C7_buy_amount_clamped (mkReading 70 "PASS" 10) 0 "PASS" 1 "估值中性" 1000 5000
     (PositionView.mk 0 0 0) "core" (by norm_num)
     (by simp [multStages, tacticalScore, tierStage, valuationStage,
        riskVetoStage, lockStage, mkReading]
         norm_num)⟩

/-- Claim C9, counterexample: the decision engine mutates the reading it is
given — the safe-default reading enters with `final_score = 0` and leaves a
PASS cycle with advisory adjustment 50 carrying `final_score = 50`. -/
theorem C9_counterexample :
    (get_safe_default_indicators "数据不足或计算错误").final_score = some 0 ∧
    (calculate_position_v13 (get_safe_default_indicators "数据不足或计算错误") 50
        "PASS" 1 "估值中性" 1000 5000 (PositionView.mk 0 0 0) "core").tech.final_score
      = some 50 ∧
    (calculate_position_v13 (get_safe_default_indicators "数据不足或计算错误") 50
        "PASS" 1 "估值中性" 1000 5000 (PositionView.mk 0 0 0) "core").tech
      ≠ get_safe_default_indicators "数据不足或计算错误" := by
  have hfs : (calculate_position_v13 (get_safe_default_indicators "数据不足或计算错误")
      50 "PASS" 1 "估值中性" 1000 5000 (PositionView.mk 0 0 0) "core").tech.final_score
      = some 50 := by
    simp [calculate_position_v13, multStages, tacticalScore, tierStage,
      valuationStage, riskVetoStage, lockStage, withReasons,
      get_safe_default_indicators]
    norm_num
  refine ⟨rfl, hfs, fun h => ?_⟩
  rw [h] at hfs
  simp [get_safe_default_indicators] at hfs

/-- Claim C9 (amended): the decision engine writes exactly the bookkeeping
keys (`final_score`, `ai_adjustment`, `valuation_desc`, `quant_reasons`) into
the reading; every field computed by the technical signal engine — RSI, MACD,
risk factors, OBV slope, weekly trend, price, quantitative score, CRO signal
and comment — is preserved unchanged. -/
theorem C9_engine_preserves_indicator_fields (tech : TechnicalReading)
    (ai_adj : ℤ) (ai_decision : String) (val_mult : ℚ) (val_desc : String)
    (base_amt max_daily : ℚ) (pos : PositionView) (strategy_type : String) :
    (calculate_position_v13 tech ai_adj ai_decision val_mult val_desc base_amt
        max_daily pos strategy_type).tech.rsi = tech.rsi ∧
    (calculate_position_v13 tech ai_adj ai_decision val_mult val_desc base_amt
        max_daily pos strategy_type).tech.macd = tech.macd ∧
    (calculate_position_v13 tech ai_adj ai_decision val_mult val_desc base_amt
        max_daily pos strategy_type).tech.risk_factors = tech.risk_factors ∧
    (calculate_position_v13 tech ai_adj ai_decision val_mult val_desc base_amt
        max_daily pos strategy_type).tech.obv_slope = tech.obv_slope ∧
    (calculate_position_v13 tech ai_adj ai_decision val_mult val_desc base_amt
        max_daily pos strategy_type).tech.trend_weekly = tech.trend_weekly ∧
    (calculate_position_v13 tech ai_adj ai_decision val_mult val_desc base_amt
        max_daily pos strategy_type).tech.price = tech.price ∧
    (calculate_position_v13 tech ai_adj ai_decision val_mult val_desc base_amt
        max_daily pos strategy_type).tech.quant_score = tech.quant_score ∧
    (calculate_position_v13 tech ai_adj ai_decision val_mult val_desc base_amt
        max_daily pos strategy_type).tech.tech_cro_signal = tech.tech_cro_signal ∧
    (calculate_position_v13 tech ai_adj ai_decision val_mult val_desc base_amt
        max_daily pos strategy_type).tech.tech_cro_comment = tech.tech_cro_comment := by
  simp only [calculate_position_v13, withReasons]
  split_ifs <;> simp

end FundAdvisor
